import Mathlib

/-!
Shallow embedding of the SunCheck checklist-generation engine
(`server/routes.ts`: `generateChecklistItems`, `getStructureItems`, and the
string-configuration computations repeated in the analyze/report routes).

Modelling conventions:
* JavaScript numbers are modelled as `ℚ`. Every numeric literal in the source
  (0.5, 0.7, 1.2, 1.8, 2, 2.1, 2.5, 4.5, 0.2, 0.3, 1.25, 3.0, 5, 8, 15, 550,
  40, 1000, 6, 10) is an exact decimal, and every `Math.ceil` argument in the
  reachable range is far enough from the double-rounding error (≤ a few ulp,
  never crossing an integer in the wrong direction for inputs up to the
  documented 1..200 panel range) that `Int.ceil` over `ℚ` agrees with the
  float computation.
* `Math.ceil` is `jsCeil : ℚ → ℤ` below.
* Template-literal interpolation of an integer-valued number is `toString` on
  `ℤ`/`ℕ`; the one possibly-fractional interpolated value (`adjustedPower`)
  goes through `jsNumToString`, which prints a terminating decimal expansion
  the way JavaScript prints such values.
* `parseFloat(inverterPower)` is modelled by giving the project record a
  rational `inverterPower` field holding the parsed value (all claims quantify
  over the numeric power, never over unparseable strings).
-/

namespace SunCheck

/-- `Math.ceil` on an exact rational. -/
def jsCeil (q : ℚ) : ℤ := ⌈q⌉

/-- Decimal digits of the fractional part `r/d` (fuel-bounded; every value the
generator interpolates has a terminating decimal expansion). -/
def fracDigits : ℕ → ℕ → ℕ → String
  | 0, _, _ => ""
  | fuel + 1, r, d =>
    if r = 0 then ""
    else toString (r * 10 / d) ++ fracDigits fuel (r * 10 % d) d

/-- How JavaScript template literals print a (finite-decimal) number:
integers without a decimal point, otherwise sign, integer part, `.`, digits. -/
def jsNumToString (q : ℚ) : String :=
  if q.den = 1 then toString q.num
  else
    (if q < 0 then "-" else "") ++
      toString (q.num.natAbs / q.den) ++ "." ++
      fracDigits 30 (q.num.natAbs % q.den) q.den

/-- A generated checklist item (`title`, `description`, `category`), before the
caller attaches `projectId` and `isCompleted`. -/
structure ChecklistItem where
  title : String
  description : String
  category : String
deriving DecidableEq, Repr

/-- `const panelPower = 550` (watts per panel). -/
def panelPower : ℚ := 550

/-- `const minimumInverterPower = 3.0`. -/
def minimumInverterPower : ℚ := 3.0

/-- `stringConfig` as computed inside `generateChecklistItems`
(routes.ts lines 21–30): `"2x2"` by default, `"3x3"` when `solarPanelsCount > 8`. -/
def stringConfig (solarPanelsCount : ℕ) : String :=
  if solarPanelsCount > 8 then "3x3" else "2x2"

/-- `numberOfStrings` as computed inside `generateChecklistItems`:
2 by default, 3 when `solarPanelsCount > 8`. -/
def numberOfStrings (solarPanelsCount : ℕ) : ℕ :=
  if solarPanelsCount > 8 then 3 else 2

/-- `panelsPerString`: `Math.ceil(count/2)`, overwritten by `Math.ceil(count/3)`
when `solarPanelsCount > 8`. -/
def panelsPerString (solarPanelsCount : ℕ) : ℤ :=
  if solarPanelsCount > 8 then jsCeil ((solarPanelsCount : ℚ) / 3)
  else jsCeil ((solarPanelsCount : ℚ) / 2)

/-- `const stringCurrent = panelPower / 40`. -/
def stringCurrent : ℚ := panelPower / 40

/-- `const ccCableLength = Math.ceil(solarPanelsCount * 4.5)`. -/
def ccCableLength (solarPanelsCount : ℕ) : ℤ :=
  jsCeil ((solarPanelsCount : ℚ) * 4.5)

/-- `const caCableLength = Math.ceil(adjustedPower * 2.5 + 10)`. -/
def caCableLength (adjustedPower : ℚ) : ℤ :=
  jsCeil (adjustedPower * 2.5 + 10)

/-- `const mc4Connectors = Math.max(3, Math.ceil(numberOfStrings + 1))`. -/
def mc4Connectors (nStrings : ℕ) : ℤ :=
  max 3 (jsCeil ((nStrings : ℚ) + 1))

/-- Breaker sizing (routes.ts lines 54–56): start at 32 A, bump to 40 A when
`adjustedPower > 5`, then to 50 A when `adjustedPower > 8`. -/
def breakerCurrent (adjustedPower : ℚ) : ℕ :=
  let b := 32
  let b := if adjustedPower > 5 then 40 else b
  if adjustedPower > 8 then 50 else b

/-- Surge-protector (DPS) rating string used in the "DPS CA Classe II"
description: `adjustedPower <= 5 ? "20kA" : adjustedPower <= 15 ? "40kA" : "60kA"`. -/
def dpsRating (adjustedPower : ℚ) : String :=
  if adjustedPower ≤ 5 then "20kA" else if adjustedPower ≤ 15 then "40kA" else "60kA"

/-- `getStructureItems(roofType, panelCount, numberOfStrings)`
(routes.ts lines 98–211): the roof-type-specific structure items, with the
shared rail/fixation-point calculations, and `[]` for an unknown roof type. -/
def getStructureItems (roofType : String) (panelCount : ℕ) (nStrings : ℕ) :
    List ChecklistItem :=
  let panelsPerRow := jsCeil ((panelCount : ℚ) / (nStrings : ℚ))
  let railLength := jsCeil ((panelsPerRow : ℚ) * 2.1)
  let totalRailLength := railLength * (nStrings : ℤ)
  let fixationPoints := jsCeil ((panelCount : ℚ) * 1.2)
  match roofType with
  | "ceramico" =>
    [ { title := "Ganchos para Telha Cerâmica (" ++ toString fixationPoints ++ " un)",
        description := "Ganchos ajustáveis em aço inox 316 para telhas cerâmicas, com vedação EPDM dupla, suporte para " ++ toString nStrings ++ " fileiras",
        category := "estrutura" },
      { title := "Trilhos de Alumínio Anodizado (" ++ toString totalRailLength ++ "m)",
        description := "Trilhos 40x40mm para " ++ toString nStrings ++ " strings de " ++ toString panelsPerRow ++ " painéis, incluindo emendas, terminais e reguladores",
        category := "estrutura" },
      { title := "Grampos de Fixação (" ++ toString (panelCount * 2) ++ " un)",
        description := toString (jsCeil ((panelCount : ℚ) * 0.2)) ++ " grampos terminais + " ++ toString (jsCeil ((panelCount : ℚ) * 1.8)) ++ " intermediários, alumínio anodizado",
        category := "estrutura" },
      { title := "Kit de Fixação Cerâmica (" ++ toString fixationPoints ++ " kits)",
        description := "Parafusos M8x80, buchas S8, arruelas e vedações EPDM para fixação em estrutura cerâmica",
        category := "estrutura" } ]
  | "metalico" =>
    [ { title := "Grampos Trapezoidais (" ++ toString (jsCeil ((fixationPoints : ℚ) * 0.7)) ++ " un)",
        description := "Grampos para telha trapezoidal/zipada, adequados para " ++ toString nStrings ++ " fileiras, com vedação dupla EPDM",
        category := "estrutura" },
      { title := "Trilhos de Alumínio Anodizado (" ++ toString totalRailLength ++ "m)",
        description := "Sistema de trilhos 40x40mm para estrutura metálica, " ++ toString nStrings ++ " strings, com conectores e terminais",
        category := "estrutura" },
      { title := "Grampos de Fixação (" ++ toString (panelCount * 2) ++ " un)",
        description := "Grampos terminais e intermediários para fixação de " ++ toString panelCount ++ " painéis em " ++ toString nStrings ++ " strings",
        category := "estrutura" },
      { title := "Parafusos Autoperfurantes (" ++ toString (fixationPoints * 2) ++ " un)",
        description := "Parafusos 12x80mm com vedação EPDM, brocas adequadas para perfil metálico",
        category := "estrutura" } ]
  | "fibrocimento" =>
    [ { title := "Ganchos para Telha Fibrocimento (" ++ toString fixationPoints ++ " un)",
        description := "Ganchos específicos para telhas de fibrocimento/Brasilit, em aço galvanizado, com vedação EPDM reforçada para " ++ toString nStrings ++ " fileiras",
        category := "estrutura" },
      { title := "Trilhos de Alumínio Anodizado (" ++ toString totalRailLength ++ "m)",
        description := "Sistema de trilhos 40x40mm reforçado para fibrocimento, " ++ toString nStrings ++ " strings de " ++ toString panelsPerRow ++ " painéis, com conectores especiais",
        category := "estrutura" },
      { title := "Grampos de Fixação (" ++ toString (panelCount * 2) ++ " un)",
        description := "Grampos terminais e intermediários em alumínio anodizado, adequados para carga de vento em fibrocimento",
        category := "estrutura" },
      { title := "Kit de Fixação Fibrocimento (" ++ toString fixationPoints ++ " kits)",
        description := "Parafusos autoperfurantes 12x100mm, buchas especiais, arruelas metálicas e vedações EPDM duplas para telhas de fibrocimento",
        category := "estrutura" },
      { title := "Reforço Estrutural",
        description := toString (jsCeil ((fixationPoints : ℚ) * 0.3)) ++ " perfis de reforço interno em aço galvanizado para distribuição de cargas em telhas fibrocimento",
        category := "estrutura" } ]
  | "solo" =>
    let foundationPoints := jsCeil ((nStrings : ℚ) * 2)
    [ { title := "Estrutura Solo Fixa (" ++ toString (jsCeil ((panelCount : ℚ) / 6)) ++ " kits)",
        description := "Sistema de estrutura fixa para solo, cada kit comporta 6 painéis, inclinação 20°, para " ++ toString nStrings ++ " strings",
        category := "estrutura" },
      { title := "Fundações de Concreto (" ++ toString foundationPoints ++ " un)",
        description := "Blocos de fundação 40x40x60cm ou estacas hélice contínua, adequadas para " ++ toString panelCount ++ " painéis",
        category := "estrutura" },
      { title := "Kit de Ancoragem (" ++ toString foundationPoints ++ " kits)",
        description := "Chumbadores M16x200mm, porcas, arruelas e graute para fixação da estrutura nas fundações",
        category := "estrutura" },
      { title := "Sistema de Aterramento Solo",
        description := "Malha de aterramento com " ++ toString foundationPoints ++ " hastes cobreadas interligadas, cabo nu 25mm²",
        category := "estrutura" } ]
  | _ => []

/-- `generateChecklistItems` (routes.ts lines 9–96) on the three fields it
destructures from the project record: safety item, six electrical-materials
items, then the roof-type-specific structure items. -/
def generateChecklistItems (solarPanelsCount : ℕ) (power : ℚ) (roofType : String) :
    List ChecklistItem :=
  let _totalPanelPower := ((solarPanelsCount : ℚ) * panelPower) / 1000
  let adjustedPower := max power minimumInverterPower
  let config := stringConfig solarPanelsCount
  let nStrings := numberOfStrings solarPanelsCount
  let cc := ccCableLength solarPanelsCount
  let ca := caCableLength adjustedPower
  let mc4 := mc4Connectors nStrings
  let caCableSection := "6mm²"
  let breaker := breakerCurrent adjustedPower
  [ { title := "Sistema de Aterramento Equipotencial",
      description := "Hastes cobreadas 2,4m (" ++ toString (jsCeil ((nStrings : ℚ) * 0.5)) ++ " un), cabo nu 16mm² (" ++ toString (jsCeil ((solarPanelsCount : ℚ) * 2)) ++ "m), conectores de aterramento",
      category := "seguranca" },
    { title := "Cabo Solar CC 6mm² (" ++ toString cc ++ "m)",
      description := toString (jsCeil ((cc : ℚ) / 2)) ++ "m vermelho + " ++ toString (jsCeil ((cc : ℚ) / 2)) ++ "m preto, cabo solar 6mm² dupla isolação para configuração " ++ config,
      category := "materiais_eletricos" },
    { title := "Conectores MC4 (" ++ toString mc4 ++ " pares)",
      description := "Conectores MC4 originais: 1 par no telhado (interligação strings) + 2 pares no inversor (entrada CC)",
      category := "materiais_eletricos" },
    { title := "String Box CC " ++ toString nStrings ++ "x1",
      description := "Caixa de proteção CC para configuração " ++ config ++ ", fusíveis " ++ toString (jsCeil (stringCurrent * 1.25)) ++ "A, DPS CC Tipo II",
      category := "materiais_eletricos" },
    { title := "Cabo CA " ++ caCableSection ++ " (" ++ toString ca ++ "m)",
      description := "Cabo multipolar " ++ caCableSection ++ " para " ++ jsNumToString adjustedPower ++ "kW (mínimo 3kW), isolação 0,6/1kV, conexão inversor-quadro CA",
      category := "materiais_eletricos" },
    { title := "Disjuntor CA " ++ toString breaker ++ "A",
      description := "Disjuntor tripolar " ++ toString breaker ++ "A (padrão " ++ toString breaker ++ "A), curva C, 6kA, para proteção do circuito CA",
      category := "materiais_eletricos" },
    { title := "DPS CA Classe II",
      description := "Dispositivo de proteção contra surtos CA, " ++ dpsRating adjustedPower ++ ", adequado para " ++ jsNumToString adjustedPower ++ "kW",
      category := "materiais_eletricos" } ]
  ++ getStructureItems roofType solarPanelsCount nStrings

/-- The validated project record handed to `generateChecklistItems` by the
`POST /api/projects` handler (fields per the project schemas in routes.ts;
`inverterPower` holds the parsed numeric value of the stored string). -/
structure ProjectData where
  name : String
  address : String
  phone : String
  inverterPower : ℚ
  inverterBrand : String
  solarPanelsCount : ℕ
  installationDate : String
  installer : String
  roofType : String
  status : String
deriving DecidableEq, Repr

/-- `generateChecklistItems(projectData)`: the source destructures exactly
`roofType`, `inverterPower` (via `parseFloat`) and `solarPanelsCount`. -/
def generateChecklistItemsP (p : ProjectData) : List ChecklistItem :=
  generateChecklistItems p.solarPanelsCount p.inverterPower p.roofType

/-- The string configuration recomputed in the `POST /api/projects/:id/analyze`
handler (routes.ts lines 407–411): `"2x2"`, switched to `"3x3"` when
`solarPanelsCount > 8`. -/
def analyzeRouteStringConfig (solarPanelsCount : ℕ) : String :=
  if solarPanelsCount > 8 then "3x3" else "2x2"

/-- The string configuration recomputed in the `POST /api/projects/:id/report`
handler (routes.ts lines 440–444), identical in form to the analyze route. -/
def reportRouteStringConfig (solarPanelsCount : ℕ) : String :=
  if solarPanelsCount > 8 then "3x3" else "2x2"

/-- Display rank of a category in the emission order: safety, then electrical
materials, then structure. -/
def categoryRank : String → ℕ
  | "seguranca" => 0
  | "materiais_eletricos" => 1
  | "estrutura" => 2
  | _ => 3

theorem minimumInverterPower_eq : minimumInverterPower = 3 := by
  norm_num [minimumInverterPower]

theorem structureItems_category_eq (r : String) (c n : ℕ) :
    ∀ i ∈ getStructureItems r c n, i.category = "estrutura" := by
  intro i hi
  simp only [getStructureItems] at hi
  split at hi <;>
    first
      | exact absurd hi (List.not_mem_nil _)
      | (fin_cases hi <;> rfl)

/-- C1: calling the checklist generator twice with identical
`(panelCount, inverterPowerKw, roofType)` arguments yields identical output
sequences (same items, titles, descriptions, categories, order) — the
generator is a pure function of its three arguments. -/
theorem generate_deterministic (c : ℕ) (k : ℚ) (r : String) :
    generateChecklistItems c k r = generateChecklistItems c k r := rfl

/-- C2: for `panelCount ∈ [1,8]` the generator uses 2 strings and the `"2x2"`
configuration; for `panelCount ∈ [9,200]` it uses 3 strings and `"3x3"`; and
`panelsPerString` is always `ceil(panelCount / numberOfStrings)`. -/
theorem string_threshold (c : ℕ) :
    (1 ≤ c → c ≤ 8 → numberOfStrings c = 2 ∧ stringConfig c = "2x2") ∧
    (9 ≤ c → c ≤ 200 → numberOfStrings c = 3 ∧ stringConfig c = "3x3") ∧
    panelsPerString c = ⌈(c : ℚ) / (numberOfStrings c : ℚ)⌉ := by
  by_cases h : c > 8
  · refine ⟨fun _ h8 => absurd h (by omega), fun _ _ => ?_, ?_⟩
    · simp [numberOfStrings, stringConfig, h]
    · simp [panelsPerString, numberOfStrings, jsCeil, h]
  · refine ⟨fun _ _ => ?_, fun h9 _ => absurd h9 (by omega), ?_⟩
    · simp [numberOfStrings, stringConfig, h]
    · simp [panelsPerString, numberOfStrings, jsCeil, h]

theorem string_threshold_witness :
    numberOfStrings 4 = 2 ∧ stringConfig 4 = "2x2" ∧
    numberOfStrings 12 = 3 ∧ stringConfig 12 = "3x3" :=
  ⟨((string_threshold 4).1 (by norm_num) (by norm_num)).1,
   ((string_threshold 4).1 (by norm_num) (by norm_num)).2,
   ((string_threshold 12).2.1 (by norm_num) (by norm_num)).1,
   ((string_threshold 12).2.1 (by norm_num) (by norm_num)).2⟩

/-- C3: for any `inverterPowerKw < 3.0` the generator's full output (every
title, description and category) equals the output at `inverterPowerKw = 3.0`:
the defensive `max(power, 3.0)` clamp makes every power-derived quantity agree
with its value at 3 kW. -/
theorem power_floor (c : ℕ) (k : ℚ) (r : String) (h : k < 3) :
    generateChecklistItems c k r = generateChecklistItems c 3 r := by
  unfold generateChecklistItems
  rw [minimumInverterPower_eq, max_eq_right h.le, max_self]

theorem power_floor_witness :
    generateChecklistItems 6 2 "ceramico" = generateChecklistItems 6 3 "ceramico" :=
  power_floor 6 2 "ceramico" (by norm_num)

/-- C4: the AC breaker item emitted at position 5 of the generator's output
carries `breakerCurrent` of the adjusted power, and `breakerCurrent` is the
three-tier step function with strict-greater-than boundaries: 32 A for
adjusted power ≤ 5 kW (so exactly 5.0 gives 32 A), 40 A for 5 < power ≤ 8
(so exactly 8.0 gives 40 A), and 50 A above 8 kW. -/
theorem breaker_tiers (c : ℕ) (k : ℚ) (r : String) :
    ((generateChecklistItems c k r).map ChecklistItem.title)[5]? =
      some ("Disjuntor CA " ++ toString (breakerCurrent (max k minimumInverterPower)) ++ "A") ∧
    (∀ q : ℚ, q ≤ 5 → breakerCurrent q = 32) ∧
    (∀ q : ℚ, 5 < q → q ≤ 8 → breakerCurrent q = 40) ∧
    (∀ q : ℚ, 8 < q → breakerCurrent q = 50) := by
  refine ⟨rfl, ?_, ?_, ?_⟩ <;>
    (intro q
     intros
     simp only [breakerCurrent]
     split_ifs <;> first | rfl | linarith)

theorem breaker_tiers_witness :
    breakerCurrent 5 = 32 ∧ breakerCurrent 6 = 40 ∧
    breakerCurrent 8 = 40 ∧ breakerCurrent 9 = 50 :=
  ⟨(breaker_tiers 1 1 "x").2.1 5 (by norm_num),
   (breaker_tiers 1 1 "x").2.2.1 6 (by norm_num) (by norm_num),
   (breaker_tiers 1 1 "x").2.2.1 8 (by norm_num) (by norm_num),
   (breaker_tiers 1 1 "x").2.2.2 9 (by norm_num)⟩

/-- C5: for a `roofType` outside the four known values the generator still
returns normally: the structure subset is empty and the output is exactly the
7 non-structure items — 1 safety item followed by 6 electrical-materials
items. -/
theorem unknown_rooftype (c : ℕ) (k : ℚ) (r : String)
    (h1 : r ≠ "ceramico") (h2 : r ≠ "metalico")
    (h3 : r ≠ "fibrocimento") (h4 : r ≠ "solo") :
    getStructureItems r c (numberOfStrings c) = [] ∧
    (generateChecklistItems c k r).length = 7 ∧
    (generateChecklistItems c k r).map ChecklistItem.category =
      ["seguranca", "materiais_eletricos", "materiais_eletricos",
       "materiais_eletricos", "materiais_eletricos", "materiais_eletricos",
       "materiais_eletricos"] := by
  have hs : getStructureItems r c (numberOfStrings c) = [] := by
    simp only [getStructureItems]
  refine ⟨hs, ?_, ?_⟩ <;> simp [generateChecklistItems, hs]

theorem unknown_rooftype_witness :
    (generateChecklistItems 5 4 "telhado").length = 7 :=
  (unknown_rooftype 5 4 "telhado" (by decide) (by decide) (by decide)
    (by decide)).2.1

/-- C6: the metal-roof structure items carry a trapezoidal-clamp quantity of
`ceil(fixationPoints * 0.7)` and a self-tapping-screw quantity of
`fixationPoints * 2`, where `fixationPoints = ceil(panelCount * 1.2)`; at
`panelCount = 20` this gives `fixationPoints = 24` and 17 trapezoidal
clamps. -/
theorem metal_roof_quantities (c n : ℕ) :
    ((getStructureItems "metalico" c n).map ChecklistItem.title)[0]? =
      some ("Grampos Trapezoidais (" ++
        toString ⌈(⌈(c : ℚ) * 1.2⌉ : ℚ) * 0.7⌉ ++ " un)") ∧
    ((getStructureItems "metalico" c n).map ChecklistItem.title)[3]? =
      some ("Parafusos Autoperfurantes (" ++
        toString (⌈(c : ℚ) * 1.2⌉ * 2) ++ " un)") ∧
    ⌈(20 : ℚ) * 1.2⌉ = 24 ∧
    ((getStructureItems "metalico" 20 (numberOfStrings 20)).map
        ChecklistItem.title)[0]? =
      some "Grampos Trapezoidais (17 un)" := by
  refine ⟨rfl, rfl, by norm_num, ?_⟩
  have h0 : ((getStructureItems "metalico" 20 (numberOfStrings 20)).map
      ChecklistItem.title)[0]? =
      some ("Grampos Trapezoidais (" ++
        toString (jsCeil ((jsCeil ((20 : ℚ) * 1.2) : ℚ) * 0.7)) ++ " un)") := rfl
  have h24 : jsCeil ((20 : ℚ) * 1.2) = 24 := by norm_num [jsCeil]
  have h17 : jsCeil (((24 : ℤ) : ℚ) * 0.7) = 17 := by
    unfold jsCeil
    rw [Int.ceil_eq_iff]
    norm_num
  rw [h0, h24, h17]
  rfl

/-- C7: the string configuration computed inside the checklist generator
agrees, for every panel count, with the string configurations recomputed in
the AI-analysis and report route handlers. -/
theorem string_config_agreement (c : ℕ) :
    stringConfig c = analyzeRouteStringConfig c ∧
    stringConfig c = reportRouteStringConfig c := ⟨rfl, rfl⟩

/-- C8: the generator's output is emitted in the fixed category order — every
safety item precedes every electrical-materials item, and every
electrical-materials item precedes every structure item (category rank is
monotone along the output list). -/
theorem category_emission_order (c : ℕ) (k : ℚ) (r : String) :
    List.Pairwise
      (fun a b => categoryRank a.category ≤ categoryRank b.category)
      (generateChecklistItems c k r) := by
  have hstruct := structureItems_category_eq r c (numberOfStrings c)
  simp only [generateChecklistItems]
  rw [List.pairwise_append]
  refine ⟨?_, ?_, ?_⟩
  · simp [List.pairwise_cons, categoryRank]
  · refine List.pairwise_of_forall_mem_list ?_
    intro a ha b hb
    rw [hstruct a ha, hstruct b hb]
  · intro a ha b hb
    rw [hstruct b hb]
    simp only [List.mem_cons, List.not_mem_nil, or_false] at ha
    rcases ha with rfl | rfl | rfl | rfl | rfl | rfl | rfl <;>
      simp [categoryRank]

/-- C9: the generator depends only on the `roofType`, `inverterPower` and
`solarPanelsCount` fields of the project record: two records agreeing on
those three fields produce identical checklists, whatever their other
fields. -/
theorem generate_three_field_dependence (p q : ProjectData)
    (h1 : p.roofType = q.roofType) (h2 : p.inverterPower = q.inverterPower)
    (h3 : p.solarPanelsCount = q.solarPanelsCount) :
    generateChecklistItemsP p = generateChecklistItemsP q := by
  unfold generateChecklistItemsP
  rw [h1, h2, h3]

theorem generate_three_field_dependence_witness :
    generateChecklistItemsP
      ⟨"Alice", "Rua A, 1", "111111", 5, "MarcaX", 10, "2024-01-01",
        "Bruno", "ceramico", "planejamento"⟩ =
    generateChecklistItemsP
      ⟨"Carla", "Rua B, 2", "222222", 5, "MarcaY", 10, "2024-02-02",
        "Diego", "ceramico", "concluido"⟩ :=
  generate_three_field_dependence _ _ rfl rfl rfl

/-- C10: for every panel count and inverter power the structure list has
exactly 4 items for the ceramic, metal and ground-mount roof types and 5 for
fiber-cement, so the full checklist has 11 items for the first three roof
types and 12 for fiber-cement. -/
theorem item_counts (c n : ℕ) (k : ℚ) :
    (getStructureItems "ceramico" c n).length = 4 ∧
    (getStructureItems "metalico" c n).length = 4 ∧
    (getStructureItems "solo" c n).length = 4 ∧
    (getStructureItems "fibrocimento" c n).length = 5 ∧
    (generateChecklistItems c k "ceramico").length = 11 ∧
    (generateChecklistItems c k "metalico").length = 11 ∧
    (generateChecklistItems c k "solo").length = 11 ∧
    (generateChecklistItems c k "fibrocimento").length = 12 :=
  ⟨rfl, rfl, rfl, rfl, rfl, rfl, rfl, rfl⟩

end SunCheck
